import Mathlib

/-!
Shallow embedding of the speech-orchestration core of jarbas-core:

* `mycroft/audio/speech.py` — the speak handler (`handle_speak`), the
  TTS gate (`mute_and_speak`), the stop handler (`handle_stop`) and the
  module initialisation (`speechInitState`, from `init`);
* `mycroft/util/__init__.py` — the disk cache curator (`curate_cache`);
* `mycroft/audio/services/mpv/__init__.py` — the MPV playlist operations
  (`MPVState.next`, `MPVState.play`).

Pure data is translated directly; the stateful parts are translated as
explicit state passing over a small state record plus an event trace
recording every externally visible action (lock operations, engine calls,
playback-thread operations, file deletions).  Python dynamic values that
the code stores and compares (`config.get('tts')`, `hash(str(...))`) are
modelled by the `PyVal` type; Python's process-randomised string hash is a
parameter `h : String → Int` of the definitions that use it.
-/

namespace Mycroft

/-- Python values as far as the embedded code observes them: `None`,
`int`, `str` and (string-leaved) `dict` configuration subtrees.  Python
`==`/`!=` between these is structural equality, and values of different
constructors are never equal, which matches Python for these types. -/
inductive PyVal where
  | pynone
  | pyint (z : Int)
  | pystr (s : String)
  | pydict (entries : List (String × String))
deriving DecidableEq

/-- Python `str()` of a `PyVal` (the exact dict rendering is irrelevant to
every theorem below; what matters is that it is a function of the value). -/
def strOf : PyVal → String
  | PyVal.pynone => "None"
  | PyVal.pyint z => toString z
  | PyVal.pystr s => s
  | PyVal.pydict l =>
      "\x7b" ++ String.intercalate ", " (l.map (fun p => p.1 ++ ": " ++ p.2)) ++ "\x7d"

/-- The configuration as read by `speech.py`: the `enclosure` subtree
(read via `config.get('enclosure', {}).get('platform')`) and the `tts`
subtree (read via `config.get('tts')` / `config.get('tts', '')`).
`tts = none` models an absent key. -/
structure Config where
  enclosure : List (String × String)
  tts : Option PyVal
deriving DecidableEq

/-- `config.get('enclosure', {}).get('platform')`; `none` models Python
`None` for a missing key. -/
def getPlatform (cfg : Config) : Option String :=
  cfg.enclosure.lookup "platform"

/-- Python exceptions that the embedded code can raise:
`RuntimeError` is what `threading.Lock.release` raises on an unlocked lock. -/
inductive PyErr where
  | runtimeError
deriving DecidableEq

/-- Externally visible actions of one speak request, in order. -/
inductive Ev where
  | acquire                 -- the global lock is acquired (`with lock:`)
  | speechStart             -- `ws.emit(Message("mycroft.audio.speech.start", ...))`
  | pbStop                  -- `tts.playback.stop()`
  | pbJoin                  -- `tts.playback.join()`
  | ttsCreate               -- `TTSFactory.create()`
  | ttsInit                 -- `tts.init(ws)`
  | execute (chunk : String)  -- `tts.execute(chunk, ident)`
  | releaseOk               -- `lock.release()` on a held lock
  | releaseErr              -- `lock.release()` on an unlocked lock (raises RuntimeError)
  | caughtError             -- the bare `except:` in the chunk loop logged an error
  | reportTiming            -- `report_timing(...)` after the `with` block
  | clearQueue              -- `tts.playback.clear_queue()`
  | clearVisimes            -- `tts.playback.clear_visimes()`
deriving DecidableEq

/-- The module-global state of `speech.py` that one speak request reads and
writes: the global `lock` (held or not), the `speak_flag`, and `tts_hash`. -/
structure SpState where
  lockHeld : Bool
  speakFlag : Bool
  ttsHash : PyVal
deriving DecidableEq

/-- `mute_and_speak(utterance, ident, mute=False)` (speech.py lines 116-143).

Returns the new state, the trace of actions, and the exception it raises,
if any.  Faithful points: the early return when `speak_flag` is false
happens before the fingerprint check and before the `try/finally`; the
fingerprint compared is `hash(str(config.get('tts', '')))`; the `finally`
releases the global lock unconditionally, which raises `RuntimeError` when
the lock is not held (the engine call itself is modelled as non-throwing). -/
def mute_and_speak (h : String → Int) (cfg : Config) (st : SpState)
    (utterance : String) (mute : Bool) : SpState × List Ev × Option PyErr :=
  if st.speakFlag = false then (st, [], Option.none)
  else
    let fp : PyVal := PyVal.pyint (h (strOf (cfg.tts.getD (PyVal.pystr ""))))
    let sw :=
      if st.ttsHash ≠ fp then
        ({ st with ttsHash := fp }, [Ev.pbStop, Ev.pbJoin, Ev.ttsCreate, Ev.ttsInit])
      else (st, ([] : List Ev))
    let evExec : List Ev := if mute = false then [Ev.execute utterance] else []
    if sw.1.lockHeld = true then
      ({ sw.1 with lockHeld := false }, sw.2 ++ evExec ++ [Ev.releaseOk], Option.none)
    else
      (sw.1, sw.2 ++ evExec ++ [Ev.releaseErr], some PyErr.runtimeError)

/-- `len(re.findall('<[^>]*>', utterance)) != 0`: the utterance contains a
`<` with a later `>` (the regex matches exactly when that happens, taking
the first `>` after a `<`). -/
def hasMarkup : List Char → Bool
  | [] => false
  | c :: rest => (c == '<' && rest.contains '>') || hasMarkup rest

/-- The condition of speech.py line 94: split into chunks exactly when the
platform is not "picroft" and the utterance holds no angle-bracket markup.
Python's `!=` against `None` (missing platform key) is `True`. -/
def usesSplit (cfg : Config) (u : String) : Bool :=
  decide (getPlatform cfg ≠ some "picroft") && !(hasMarkup u.data)

/-- Regex `\w` (ASCII range; every string in this development is ASCII). -/
def isWordChar (c : Char) : Bool := c.isAlphanum || c == '_'

/-- Regex `\s` (ASCII range). -/
def isSpaceRe (c : Char) : Bool :=
  c == ' ' || c == '\t' || c == '\n' || c == '\r' || c == '\x0b' || c == '\x0c'

/-- Position `i` of `s` is a split point of
`re.split(r'(?<!\w\.\w.)(?<![A-Z][a-z]\.)(?<=\.|\?)\s', s)`:
the character at `i` matches `\s`, the character before it is `.` or `?`
(lookbehind `(?<=\.|\?)`), the three characters before `i` are not
uppercase-lowercase-period (lookbehind `(?<![A-Z][a-z]\.)`), and the four
characters before `i` are not word-period-word-anychar
(lookbehind `(?<!\w\.\w.)`, where `.` matches anything but a newline).
A lookbehind that would reach before the start of the string cannot match. -/
def isSplitPoint (s : List Char) (i : Nat) : Bool :=
  isSpaceRe (s.getD i ' ') &&
  (decide (1 ≤ i) && (s.getD (i-1) ' ' == '.' || s.getD (i-1) ' ' == '?')) &&
  !(decide (3 ≤ i) && (s.getD (i-3) ' ').isUpper && (s.getD (i-2) ' ').isLower &&
      s.getD (i-1) ' ' == '.') &&
  !(decide (4 ≤ i) && isWordChar (s.getD (i-4) ' ') && s.getD (i-3) ' ' == '.' &&
      isWordChar (s.getD (i-2) ' ') && s.getD (i-1) ' ' != '\n')

/-- All split points of `s`, in increasing order. -/
def splitPositions (s : List Char) : List Nat :=
  (List.range s.length).filter (fun i => isSplitPoint s i)

/-- Cut `s` at the given (increasing) positions, dropping the one-character
separator at each position, as `re.split` does for these patterns. -/
def cutAt (s : List Char) (start : Nat) : List Nat → List (List Char)
  | [] => [s.drop start]
  | p :: ps => (s.drop start).take (p - start) :: cutAt s (p+1) ps

/-- The utterance splitter of speech.py lines 97-98:
`re.split(r'(?<!\w\.\w.)(?<![A-Z][a-z]\.)(?<=\.|\?)\s', utterance)`. -/
def mycroftSplit (u : String) : List String :=
  (cutAt u.data 0 (splitPositions u.data)).map (fun l => String.mk l)

/-- The chunk loop of `handle_speak` (speech.py lines 96-107).

`start` is the loop's start time (`start = time.time()`); `s0` is the value
of `_last_stop_signal` when the loop starts; a stop request issued at time
`T` becomes visible from the check following the `k`-th chunk onwards (the
loop re-reads `_last_stop_signal` after every chunk); `bp` is the
`buttonPress` signal; `i` counts the chunks already processed.  Each chunk
is passed to `mute_and_speak`; any exception from it other than
`KeyboardInterrupt` is swallowed by the bare `except:` (recorded as
`caughtError`), then the loop breaks iff the visible stop signal is
strictly newer than `start` or the button was pressed. -/
def speakLoop (h : String → Int) (cfg : Config) (start s0 T : Int) (k : Nat) (bp : Bool) :
    SpState → Nat → List String → SpState × List Ev
  | st, _, [] => (st, [])
  | st, i, c :: rest =>
    let r := mute_and_speak h cfg st c false
    let evs := r.2.1 ++ (if (r.2.2).isSome then [Ev.caughtError] else [])
    let sig := if k ≤ i + 1 then T else s0
    if sig > start ∨ bp = true then (r.1, evs)
    else
      let r2 := speakLoop h cfg start s0 T k bp r.1 (i + 1) rest
      (r2.1, evs ++ r2.2)

/-- `handle_speak(event)` (speech.py lines 61-113), for one request with
the lock initially free.  The `with lock:` acquires the lock, the speech
start notification is emitted, then either the chunk loop runs
(`usesSplit`) or the whole utterance goes to `mute_and_speak` with the
event's `mute` flag.  On exit from the `with` block, `lock.release()` runs
unconditionally; on an unlocked lock it raises `RuntimeError`, and any
exception from the block or the release propagates out of `handle_speak`,
so `report_timing` runs only on a clean exit. -/
def handle_speak (h : String → Int) (cfg : Config) (st : SpState) (utterance : String)
    (mute : Bool) (start s0 T : Int) (k : Nat) (bp : Bool) :
    SpState × List Ev × Option PyErr :=
  let st0 : SpState := { st with lockHeld := true }
  let ev0 : List Ev := [Ev.acquire, Ev.speechStart]
  if usesSplit cfg utterance = true then
    let r := speakLoop h cfg start s0 T k bp st0 0 (mycroftSplit utterance)
    if r.1.lockHeld = true then
      ({ r.1 with lockHeld := false }, ev0 ++ r.2 ++ [Ev.releaseOk, Ev.reportTiming],
        Option.none)
    else
      (r.1, ev0 ++ r.2 ++ [Ev.releaseErr], some PyErr.runtimeError)
  else
    let r := mute_and_speak h cfg st0 utterance mute
    if r.1.lockHeld = true then
      ({ r.1 with lockHeld := false },
        ev0 ++ r.2.1 ++ [Ev.releaseOk] ++ (if (r.2.2).isNone then [Ev.reportTiming] else []),
        r.2.2)
    else
      (r.1, ev0 ++ r.2.1 ++ [Ev.releaseErr], some PyErr.runtimeError)

/-- `handle_stop(event)` (speech.py lines 146-154): when the `isSpeaking`
signal is present, record the current time in `_last_stop_signal` and clear
the playback queues; otherwise do nothing.  Total — it raises nothing. -/
def handle_stop (isSpeakingSig : Bool) (now lastStop : Int) : Int × List Ev :=
  if isSpeakingSig = true then (now, [Ev.clearQueue, Ev.clearVisimes])
  else (lastStop, [])

/-- The module state after `init(websocket)` (speech.py lines 157-179):
the lock free, `speak_flag` at its initial `True`, and — exactly as line
179 does — `tts_hash = config.get('tts')`, the RAW configuration subtree
(not `hash(str(...))` of it). -/
def speechInitState (cfg : Config) : SpState :=
  { lockHeld := false, speakFlag := true, ttsHash := cfg.tts.getD PyVal.pynone }

/-- The chunk of an `execute` event. -/
def evToChunk : Ev → Option String
  | Ev.execute c => some c
  | _ => Option.none

/-- The chunks sent to the TTS engine in a trace, in order. -/
def sentChunks (evs : List Ev) : List String := evs.filterMap evToChunk

/-- How many times a trace attempted `lock.release()` (successful or not). -/
def releaseAttempts (evs : List Ev) : Nat :=
  (evs.filter (fun e => decide (e = Ev.releaseOk ∨ e = Ev.releaseErr))).length

/-!  The disk cache curator, `curate_cache` (util/__init__.py lines 239-286). -/

/-- What `psutil.disk_usage(directory)` reports, as far as `curate_cache`
reads it: `total`, `free` (bytes) and `percent` (used percentage).  All are
rationals, standing in for Python numbers. -/
structure DiskUsage where
  total : ℚ
  free : ℚ
  percent : ℚ

/-- One directory entry as `curate_cache` sees it: its path, `st_mtime`,
`st_size`, whether `S_ISREG` holds of its mode, and whether `os.remove`
would succeed on it (false models a permission error or a race with a
concurrent deleter). -/
structure CacheFile where
  path : String
  mtime : Int
  size : Int
  isReg : Bool
  removeOk : Bool
deriving DecidableEq

/-- Code-point lexicographic order on character lists — Python's `<=` on
the corresponding strings. -/
def charListLe : List Char → List Char → Bool
  | [], _ => true
  | _ :: _, [] => false
  | a :: as, b :: bs =>
    if a.toNat < b.toNat then true
    else if b.toNat < a.toNat then false
    else charListLe as bs

/-- Python string `<=` (code-point lexicographic). -/
def pathLe (a b : String) : Bool := charListLe a.data b.data

/-- Python's `<=` on the tuples `(moddate, fsize, path)` that
`curate_cache` sorts: lexicographic on modification time, then size, then
path. -/
def entryLe (a b : CacheFile) : Bool :=
  decide (a.mtime < b.mtime) ||
  (decide (a.mtime = b.mtime) &&
    (decide (a.size < b.size) ||
      (decide (a.size = b.size) && pathLe a.path b.path)))

/-- Insert an entry into a list sorted by `entryLe`. -/
def insertSorted (f : CacheFile) : List CacheFile → List CacheFile
  | [] => [f]
  | g :: rest => if entryLe f g = true then f :: g :: rest else g :: insertSorted f rest

/-- `sorted(entries)`: the entries in ascending `(moddate, fsize, path)`
order (insertion sort). -/
def sortEntries (l : List CacheFile) : List CacheFile := l.foldr insertSorted []

/-- The deletion loop of `curate_cache` (lines 277-286) over the sorted
entries: try to remove each file in turn; a successful removal adds the
file's size to `space_freed` and its path to the result, a failed one is
swallowed by the bare `except:` and adds nothing; after each file the loop
returns as soon as `space_freed > bytes_needed`.  Returns the paths
successfully deleted, in deletion order. -/
def sweep (needed : Int) (freed : Int) : List CacheFile → List String
  | [] => []
  | f :: rest =>
    let freed2 := if f.removeOk = true then freed + f.size else freed
    let del : List String := if f.removeOk = true then [f.path] else []
    if freed2 > needed then del
    else del ++ sweep needed freed2 rest

/-- `bytes_needed` as lines 264-265 compute it:
`int((min_free_percent - percent_free) / 100.0 * space.total + 1.0)`.
Under the breach condition the argument is positive, so Python's
truncating `int()` is the floor. -/
def bytes_needed (min_free_percent percent_free total : ℚ) : Int :=
  Int.floor ((min_free_percent - percent_free) / 100 * total + 1)

/-- `curate_cache(directory, min_free_percent=5.0, min_free_disk=50)`
(util/__init__.py lines 239-286), returning the paths it deletes, in
order.  `min_free_disk` is converted from MB to bytes; nothing happens
unless the free percentage is below `min_free_percent` AND the free bytes
are below the converted `min_free_disk`; otherwise the non-regular entries
are dropped, the rest sorted by `(moddate, fsize, path)`, and the deletion
loop runs. -/
def curate_cache (d : DiskUsage) (files : List CacheFile)
    (min_free_percent min_free_disk : ℚ) : List String :=
  let minFreeBytes := min_free_disk * 1024 * 1024
  let percent_free := 100 - d.percent
  if percent_free < min_free_percent ∧ d.free < minFreeBytes then
    sweep (bytes_needed min_free_percent percent_free d.total) 0
      (sortEntries (files.filter (fun f => f.isReg = true)))
  else []

/-- Modelled from the spec: the deletion policy in the words of claim C2 —
"delete files in the given order until the cumulative size of deleted
files exceeds `needed`, and then stop immediately, deleting no further
file".  `needed` is a rational so that the same definition serves both the
claim's unrounded `bytes_needed` and the code's integer one. -/
def deleteUntilExceeds (needed : ℚ) : List CacheFile → List String
  | [] => []
  | f :: rest =>
    if (f.size : ℚ) > needed then [f.path]
    else f.path :: deleteUntilExceeds (needed - (f.size : ℚ)) rest

/-- Modelled from the spec: the curator exactly as claim C2 states it,
with `bytes_needed = (min_free_percent - percent_free)/100` of total
capacity — no rounding — and deletion of the oldest-first regular files
until the cumulative deleted size exceeds that amount. -/
def curate_cache_claimed (d : DiskUsage) (files : List CacheFile)
    (min_free_percent min_free_disk : ℚ) : List String :=
  let minFreeBytes := min_free_disk * 1024 * 1024
  let percent_free := 100 - d.percent
  if percent_free < min_free_percent ∧ d.free < minFreeBytes then
    deleteUntilExceeds ((min_free_percent - percent_free) / 100 * d.total)
      (sortEntries (files.filter (fun f => f.isReg = true)))
  else []

/-!  The MPV audio backend (services/mpv/__init__.py). -/

/-- The playlist state of `MPVService`: the track list and the current
index (a Python int). -/
structure MPVState where
  tracks : List String
  index : Int
deriving DecidableEq

/-- Python list indexing `l[i]`: non-negative indexes from the front,
negative ones from the back, anything out of range is an `IndexError`
(`none`). -/
def pyIndex (l : List String) (i : Int) : Option String :=
  if 0 ≤ i then l.get? i.toNat
  else if 0 ≤ i + l.length then l.get? (i + l.length).toNat
  else Option.none

/-- Outcome of `MPVService.play`: a track was handed to the player, the
empty-list no-op, or the `IndexError` Python raises when
`self.tracks[self.index]` is out of range. -/
inductive PlayResult where
  | played (t : String)
  | noop
  | indexError
deriving DecidableEq

/-- `MPVService.play` (mpv/__init__.py lines 43-47): when the track list is
non-empty, stop the player and play `self.tracks[self.index]`. -/
def MPVState.play (s : MPVState) : PlayResult :=
  if s.tracks.length ≠ 0 then
    match pyIndex s.tracks s.index with
    | some t => PlayResult.played t
    | Option.none => PlayResult.indexError
  else PlayResult.noop

/-- The index update of `MPVService.next` (lines 62-67): increment the
index, and reset it to 0 only when it exceeds `len(self.tracks)` strictly;
the source then calls `self.play()` on the result. -/
def MPVState.next (s : MPVState) : MPVState :=
  let i := s.index + 1
  if i > (s.tracks.length : Int) then { s with index := 0 }
  else { s with index := i }

/-- The index update of `MPVService.previous` (lines 69-74): decrement the
index, clamping at 0. -/
def MPVState.previous (s : MPVState) : MPVState :=
  let i := s.index - 1
  if i < 0 then { s with index := 0 }
  else { s with index := i }

/-!  Concrete inputs used by the closed theorems and witnesses below. -/

/-- A concrete stand-in for Python's (process-randomised) string hash. -/
def hashZero : String → Int := fun _ => 0

/-- A configuration with no enclosure platform and a string `tts` subtree. -/
def cfgPlain : Config := ⟨[], some (PyVal.pystr "mimic")⟩

/-- A configuration whose `tts` subtree is a dict, as in a real install. -/
def cfgDictTts : Config := ⟨[], some (PyVal.pydict [("module", "mimic")])⟩

/-- Module state with the lock free, speaking enabled, and `tts_hash`
matching `hashZero` of the current `tts` configuration (no swap pending). -/
def stReady : SpState := ⟨false, true, PyVal.pyint 0⟩

/-- Module state inside the `with lock:` block (lock held). -/
def stLocked : SpState := ⟨true, true, PyVal.pyint 0⟩

/-- A directory at 97% used: 3% free, 30 bytes free of 1000 total. -/
def dLow : DiskUsage := ⟨1000, 30, 97⟩

/-- A directory at 50% used: far above both thresholds. -/
def dHigh : DiskUsage := ⟨1000, 500, 50⟩

/-- The oldest cache file: 21 bytes, deletable. -/
def fileA : CacheFile := ⟨"a.wav", 1, 21, true, true⟩

/-- The newest cache file: 21 bytes, deletable. -/
def fileB : CacheFile := ⟨"b.wav", 2, 21, true, true⟩

/-- A cache file whose deletion fails (permission error / race). -/
def fileBad : CacheFile := ⟨"bad.wav", 0, 5, true, false⟩

/-- A two-track playlist positioned on its last track. -/
def mpvLast : MPVState := ⟨["a", "b"], 1⟩

/-- Module state after `speak.disable`: the speech flag is false. -/
def stMuted : SpState := ⟨false, false, PyVal.pyint 0⟩

/-!  Helper lemmas. -/

lemma sentChunks_append (a b : List Ev) :
    sentChunks (a ++ b) = sentChunks a ++ sentChunks b :=
  List.filterMap_append a b evToChunk

lemma sentChunks_caught (P : Prop) [Decidable P] :
    sentChunks (if P then [Ev.caughtError] else []) = [] := by
  split_ifs <;> rfl

lemma mute_and_speak_speakFlag (h : String → Int) (cfg : Config) (st : SpState)
    (u : String) (m : Bool) :
    (mute_and_speak h cfg st u m).1.speakFlag = st.speakFlag := by
  simp only [mute_and_speak]
  split_ifs <;> rfl

lemma sentChunks_mute_and_speak (h : String → Int) (cfg : Config) (st : SpState)
    (u : String) (hf : st.speakFlag = true) :
    sentChunks (mute_and_speak h cfg st u false).2.1 = [u] := by
  simp only [mute_and_speak, hf]
  split_ifs <;> simp_all [sentChunks, evToChunk]

lemma speakLoop_sent_of_stop (h : String → Int) (cfg : Config) (start s0 T : Int) (k : Nat)
    (hs0 : s0 ≤ start) (hT : start < T) :
    ∀ (chunks : List String) (st : SpState) (i : Nat), st.speakFlag = true →
      sentChunks (speakLoop h cfg start s0 T k false st i chunks).2
        = chunks.take (max 1 (k - i)) := by
  intro chunks
  induction chunks with
  | nil => intro st i _; simp [speakLoop, sentChunks]
  | cons c rest ih =>
    intro st i hf
    simp only [speakLoop]
    by_cases hk : k ≤ i + 1
    · rw [if_pos hk, if_pos (Or.inl hT)]
      rw [sentChunks_append, sentChunks_mute_and_speak h cfg st c hf, sentChunks_caught]
      have e1 : max 1 (k - i) = 1 := by omega
      simp [e1]
    · rw [if_neg hk, if_neg (by simp only [not_or]; exact ⟨not_lt.mpr hs0, by simp⟩)]
      have hfr : (mute_and_speak h cfg st c false).1.speakFlag = true := by
        rw [mute_and_speak_speakFlag]; exact hf
      rw [sentChunks_append, sentChunks_append,
        sentChunks_mute_and_speak h cfg st c hf, sentChunks_caught,
        ih _ (i + 1) hfr]
      have e1 : max 1 (k - i) = (max 1 (k - (i + 1))) + 1 := by omega
      rw [e1, List.take_succ_cons]
      simp

lemma mem_insertSorted {g f : CacheFile} {l : List CacheFile} :
    g ∈ insertSorted f l ↔ g = f ∨ g ∈ l := by
  induction l with
  | nil => simp [insertSorted]
  | cons a rest ih =>
    simp only [insertSorted]
    split_ifs
    all_goals simp only [List.mem_cons, ih]
    all_goals tauto

lemma mem_sortEntries {g : CacheFile} {l : List CacheFile} :
    g ∈ sortEntries l ↔ g ∈ l := by
  induction l with
  | nil => simp [sortEntries]
  | cons a rest ih =>
    have e : sortEntries (a :: rest) = insertSorted a (sortEntries rest) := rfl
    rw [e, mem_insertSorted, ih, List.mem_cons]

lemma sweep_eq_deleteUntilExceeds (needed : Int) :
    ∀ (l : List CacheFile), (∀ f ∈ l, f.removeOk = true) → ∀ (freed : Int),
      sweep needed freed l = deleteUntilExceeds (((needed - freed : Int) : ℚ)) l := by
  intro l
  induction l with
  | nil => intro _ freed; simp [sweep, deleteUntilExceeds]
  | cons f rest ih =>
    intro hok freed
    have hf : f.removeOk = true := hok f (List.mem_cons_self f rest)
    have hrest : ∀ g ∈ rest, g.removeOk = true := fun g hg => hok g (List.mem_cons_of_mem f hg)
    simp only [sweep, deleteUntilExceeds, hf, if_pos]
    by_cases hc : freed + f.size > needed
    · rw [if_pos hc, if_pos (by exact_mod_cast (by omega : needed - freed < f.size))]
    · have hc2 : ¬ ((f.size : ℚ) > ((needed - freed : Int) : ℚ)) := by
        intro hcon
        have : needed - freed < f.size := by exact_mod_cast hcon
        omega
      rw [if_neg hc, if_neg hc2, ih hrest (freed + f.size)]
      have e : ((needed - (freed + f.size) : Int) : ℚ)
          = ((needed - freed : Int) : ℚ) - (f.size : ℚ) := by push_cast; ring
      rw [e]
      rfl

lemma sentChunks_report (P : Prop) [Decidable P] :
    sentChunks (if P then [Ev.reportTiming] else []) = [] := by
  split_ifs <;> rfl

/-!  The claims. -/

/-- Claim C1 (refuted — code bug): on a plain speak request ("Hello.",
speaking enabled, non-picroft, no markup, lock initially free, no stop)
`handle_speak` attempts to release the global lock twice — once in
`mute_and_speak`'s `finally`, once more on exit from the `with lock:`
block — and, the second attempt being on an already-unlocked lock, raises
`RuntimeError` instead of returning.  The claimed
released-exactly-once-then-return-unlocked property fails. -/
theorem handle_speak_double_release :
    (handle_speak hashZero cfgPlain stReady "Hello." false 0 0 0 1 false).2.1
      = [Ev.acquire, Ev.speechStart, Ev.execute "Hello.", Ev.releaseOk, Ev.releaseErr] ∧
    releaseAttempts
      (handle_speak hashZero cfgPlain stReady "Hello." false 0 0 0 1 false).2.1 = 2 ∧
    (handle_speak hashZero cfgPlain stReady "Hello." false 0 0 0 1 false).2.2
      = some PyErr.runtimeError := by
  decide

/-- Claim C2 as stated is false: with 3% of 1000 bytes free (so the claim's
`bytes_needed` is 20) and two deletable 21-byte files, deleting the oldest
file already exceeds 20, yet `curate_cache` deletes the second file too,
because its actual threshold is `int(raw + 1.0) = 21`. -/
theorem curate_cache_extra_delete :
    curate_cache_claimed dLow [fileA, fileB] 5 50 = ["a.wav"] ∧
    curate_cache dLow [fileA, fileB] 5 50 = ["a.wav", "b.wav"] := by
  constructor
  · unfold curate_cache_claimed
    rw [if_pos (by norm_num [dLow])]
    rw [show ((5:ℚ) - (100 - dLow.percent)) / 100 * dLow.total = 20 from by
      unfold dLow; norm_num]
    norm_num [deleteUntilExceeds, sortEntries, insertSorted, entryLe, pathLe,
      charListLe, fileA, fileB]
  · unfold curate_cache
    rw [if_pos (by norm_num [dLow])]
    rw [show bytes_needed 5 (100 - dLow.percent) dLow.total = 21 from by
      unfold bytes_needed dLow; norm_num]
    decide

/-- Claim C2 (amended): when both thresholds are breached and every
deletion succeeds, `curate_cache` deletes exactly the regular files of the
directory in ascending `(mtime, size, path)` order until the cumulative
deleted size exceeds `int((min_free_percent - percent_free)/100 * total + 1.0)`
bytes, then stops immediately. -/
theorem curate_cache_oldest_first (d : DiskUsage) (files : List CacheFile) (mfp mfd : ℚ)
    (hok : ∀ f ∈ files, f.removeOk = true)
    (hbr : 100 - d.percent < mfp ∧ d.free < mfd * 1024 * 1024) :
    curate_cache d files mfp mfd
      = deleteUntilExceeds ((bytes_needed mfp (100 - d.percent) d.total : Int) : ℚ)
          (sortEntries (files.filter (fun f => f.isReg = true))) := by
  unfold curate_cache
  rw [if_pos hbr]
  rw [sweep_eq_deleteUntilExceeds _ _
    (fun f hf => hok f (List.mem_filter.mp (mem_sortEntries.mp hf)).1) 0]
  norm_num

/-- Witness for `curate_cache_oldest_first` at a concrete breached directory. -/
theorem curate_cache_oldest_first_witness :
    ((∀ f ∈ [fileA, fileB], f.removeOk = true) ∧
      (100 - dLow.percent < 5 ∧ dLow.free < 50 * 1024 * 1024)) ∧
    curate_cache dLow [fileA, fileB] 5 50
      = deleteUntilExceeds ((bytes_needed 5 (100 - dLow.percent) dLow.total : Int) : ℚ)
          (sortEntries ([fileA, fileB].filter (fun f => f.isReg = true))) :=
  ⟨⟨by decide, by norm_num [dLow]⟩,
    curate_cache_oldest_first dLow [fileA, fileB] 5 50 (by decide) (by norm_num [dLow])⟩

/-- Claim C3 as stated is false at the boundary: a stop recorded at time
T equal to the loop's start time (so start ≤ T) does not abort the loop —
the check is strict — and all three chunks are sent to the engine. -/
theorem stop_at_equal_time_not_aborted :
    sentChunks (speakLoop hashZero cfgPlain 5 0 5 1 false stLocked 0
      ["One.", "Two.", "Three."]).2 = ["One.", "Two.", "Three."] := by
  decide

/-- Claim C3 (amended): a stop issued at a time T strictly later than the
chunk loop's start time, visible from the check after the k-th chunk
onwards (k ≥ 1), aborts the loop there: exactly the first k chunks are
sent and no later chunk ever reaches the engine; the abort raises no
error. -/
theorem stop_aborts_pending_chunks (h : String → Int) (cfg : Config) (st : SpState)
    (start s0 T : Int) (k : Nat) (chunks : List String)
    (hf : st.speakFlag = true) (hs0 : s0 ≤ start) (hT : start < T) (hk : 1 ≤ k) :
    sentChunks (speakLoop h cfg start s0 T k false st 0 chunks).2 = chunks.take k := by
  have e := speakLoop_sent_of_stop h cfg start s0 T k hs0 hT chunks st 0 hf
  rwa [show max 1 (k - 0) = k from by omega] at e

/-- Witness for `stop_aborts_pending_chunks`: a stop after chunk 1 of a
3-chunk utterance leaves chunks 2 and 3 unsent. -/
theorem stop_aborts_pending_chunks_witness :
    (stLocked.speakFlag = true ∧ (0:Int) ≤ 5 ∧ (5:Int) < 6 ∧ 1 ≤ 1) ∧
    sentChunks (speakLoop hashZero cfgPlain 5 0 6 1 false stLocked 0
      ["One.", "Two.", "Three."]).2 = ["One.", "Two.", "Three."].take 1 :=
  ⟨by decide,
    stop_aborts_pending_chunks hashZero cfgPlain stLocked 5 0 6 1
      ["One.", "Two.", "Three."] (by decide) (by decide) (by decide) (by decide)⟩

/-- Claim C4 (refuted — code bug): on the very first speak after `init`,
with the configuration completely unchanged, `mute_and_speak` performs a
full stop/join/create/init swap cycle, because `init` recorded the raw
`tts` configuration subtree as the fingerprint while `mute_and_speak`
compares it against `hash(str(...))` of that subtree — values that can
never be equal for a dict subtree.  Once a swap has recorded the hashed
fingerprint, a further speak with the unchanged configuration performs no
swap activity, confirming that only the claim's first-speak case fails. -/
theorem first_speak_spurious_swap :
    (mute_and_speak hashZero cfgDictTts
        { speechInitState cfgDictTts with lockHeld := true } "hello" false).2.1
      = [Ev.pbStop, Ev.pbJoin, Ev.ttsCreate, Ev.ttsInit, Ev.execute "hello",
         Ev.releaseOk] ∧
    (mute_and_speak hashZero cfgDictTts
        ⟨true, true,
          (mute_and_speak hashZero cfgDictTts
            { speechInitState cfgDictTts with lockHeld := true } "hello" false).1.ttsHash⟩
        "again" false).2.1
      = [Ev.execute "again", Ev.releaseOk] := by
  decide

/-- Claim C5: the utterance splitter cuts at whitespace after a period or
question mark except after the abbreviation patterns excluded by the
lookbehinds, so the literal example splits into exactly these three
chunks, with no split after "Dr.". -/
theorem split_keeps_abbreviations :
    mycroftSplit "Hello world. Dr. Smith is here. Go now?"
      = ["Hello world.", "Dr. Smith is here.", "Go now?"] := by
  decide

/-- Claim C6: when the utterance contains angle-bracket markup, or the
platform is configured as picroft, splitting is bypassed and the whole
utterance is sent to the engine as a single chunk, whatever punctuation it
contains. -/
theorem markup_or_picroft_single_chunk (h : String → Int) (cfg : Config) (st : SpState)
    (u : String) (start s0 T : Int) (k : Nat) (bp : Bool)
    (hf : st.speakFlag = true)
    (hb : hasMarkup u.data = true ∨ getPlatform cfg = some "picroft") :
    sentChunks (handle_speak h cfg st u false start s0 T k bp).2.1 = [u] := by
  have hst : ({ st with lockHeld := true } : SpState).speakFlag = true := hf
  have hsplit : usesSplit cfg u = false := by
    unfold usesSplit
    rcases hb with hb | hb
    · simp [hb]
    · simp [hb]
  simp only [handle_speak, hsplit]
  rw [if_neg Bool.false_ne_true]
  by_cases hl : (mute_and_speak h cfg { st with lockHeld := true } u false).1.lockHeld = true
  · rw [if_pos hl, sentChunks_append, sentChunks_append, sentChunks_append,
      sentChunks_mute_and_speak h cfg _ u hst, sentChunks_report]
    simp [sentChunks, evToChunk]
  · rw [if_neg hl, sentChunks_append, sentChunks_append,
      sentChunks_mute_and_speak h cfg _ u hst]
    simp [sentChunks, evToChunk]

/-- Witness for `markup_or_picroft_single_chunk`: an utterance containing
`<break time="500ms"/>` goes to the engine as one chunk despite its
sentence punctuation. -/
theorem markup_or_picroft_single_chunk_witness :
    (stReady.speakFlag = true ∧
      hasMarkup ("Hi there. <break time=\"500ms\"/> Bye.").data = true) ∧
    sentChunks (handle_speak hashZero cfgPlain stReady
        "Hi there. <break time=\"500ms\"/> Bye." false 0 0 0 1 false).2.1
      = ["Hi there. <break time=\"500ms\"/> Bye."] :=
  ⟨⟨by decide, by decide⟩,
    markup_or_picroft_single_chunk hashZero cfgPlain stReady
      "Hi there. <break time=\"500ms\"/> Bye." 0 0 0 1 false
      (by decide) (Or.inl (by decide))⟩

/-- Claim C7: when the thresholds are not breached — it is not the case
that the free percentage is below `min_free_percent` and the free bytes
are below `min_free_disk` MB — `curate_cache` deletes nothing. -/
theorem curate_cache_noop_below_threshold (d : DiskUsage) (files : List CacheFile)
    (mfp mfd : ℚ) (hno : ¬(100 - d.percent < mfp ∧ d.free < mfd * 1024 * 1024)) :
    curate_cache d files mfp mfd = [] := by
  unfold curate_cache
  rw [if_neg hno]

/-- Witness for `curate_cache_noop_below_threshold` on a half-full disk. -/
theorem curate_cache_noop_below_threshold_witness :
    (¬(100 - dHigh.percent < 5 ∧ dHigh.free < 50 * 1024 * 1024)) ∧
    curate_cache dHigh [fileA, fileB] 5 50 = [] :=
  ⟨by norm_num [dHigh],
    curate_cache_noop_below_threshold dHigh [fileA, fileB] 5 50 (by norm_num [dHigh])⟩

/-- Claim C8: a failed deletion during the sweep is swallowed — the sweep
is total (raises nothing), it continues over the remaining files exactly
as if the failed file were absent, and the failed file's size contributes
nothing to the freed-bytes count compared against `bytes_needed`.
(`freed ≤ needed` holds at every loop entry: the loop returns as soon as
`freed` exceeds `needed`.) -/
theorem sweep_skips_failed_deletion (needed freed : Int) (f : CacheFile)
    (rest : List CacheFile) (hfail : f.removeOk = false) (hle : freed ≤ needed) :
    sweep needed freed (f :: rest) = sweep needed freed rest := by
  simp only [sweep, hfail]
  rw [if_neg Bool.false_ne_true, if_neg Bool.false_ne_true,
    if_neg (not_lt.mpr hle)]
  simp

/-- Witness for `sweep_skips_failed_deletion` with a concrete failing file. -/
theorem sweep_skips_failed_deletion_witness :
    (fileBad.removeOk = false ∧ (0:Int) ≤ 21) ∧
    sweep 21 0 (fileBad :: [fileA]) = sweep 21 0 [fileA] :=
  ⟨⟨by decide, by decide⟩,
    sweep_skips_failed_deletion 21 0 fileBad [fileA] (by decide) (by decide)⟩

/-- Claim C9: from the last track, `next` advances the index to
`len(tracks)` — an out-of-range position which `play` then uses to index
the track list, raising `IndexError` — and the index resets to 0 only on
the following `next`, once it strictly exceeds the length. -/
theorem next_overruns_then_resets (s : MPVState)
    (h1 : s.tracks ≠ []) (h2 : s.index = (s.tracks.length : Int) - 1) :
    (MPVState.next s).index = (s.tracks.length : Int) ∧
    (MPVState.next s).play = PlayResult.indexError ∧
    (MPVState.next (MPVState.next s)).index = 0 := by
  have hlen : s.tracks.length ≠ 0 := fun hl => h1 (List.length_eq_zero.mp hl)
  have e1 : MPVState.next s = { s with index := (s.tracks.length : Int) } := by
    simp only [MPVState.next, h2]
    rw [if_neg (by omega)]
    congr 1
    omega
  refine ⟨by rw [e1], ?_, ?_⟩
  · rw [e1]
    simp only [MPVState.play, pyIndex]
    rw [if_pos hlen, if_pos (by positivity)]
    rw [show ((s.tracks.length : Int)).toNat = s.tracks.length from Int.toNat_natCast _]
    rw [List.get?_eq_none.mpr (le_refl _)]
  · rw [e1]
    simp only [MPVState.next]
    rw [if_pos (by omega)]

/-- Witness for `next_overruns_then_resets` on a two-track playlist. -/
theorem next_overruns_then_resets_witness :
    (mpvLast.tracks ≠ [] ∧ mpvLast.index = (mpvLast.tracks.length : Int) - 1) ∧
    ((MPVState.next mpvLast).index = (mpvLast.tracks.length : Int) ∧
      (MPVState.next mpvLast).play = PlayResult.indexError ∧
      (MPVState.next (MPVState.next mpvLast)).index = 0) :=
  ⟨⟨by decide, by decide⟩, next_overruns_then_resets mpvLast (by decide) (by decide)⟩

/-- Claim C10: while the speech flag is false, `mute_and_speak` returns
immediately before the fingerprint check: the state is unchanged (no swap,
`tts_hash` untouched, lock untouched), no event happens (no engine call,
no playback stop/join, no construction or init, no lock release) and no
error is raised. -/
theorem mute_and_speak_disabled_noop (h : String → Int) (cfg : Config) (st : SpState)
    (u : String) (m : Bool) (hoff : st.speakFlag = false) :
    mute_and_speak h cfg st u m = (st, [], Option.none) := by
  simp only [mute_and_speak, hoff]
  simp

/-- Witness for `mute_and_speak_disabled_noop` after `speak.disable`. -/
theorem mute_and_speak_disabled_noop_witness :
    stMuted.speakFlag = false ∧
    mute_and_speak hashZero cfgPlain stMuted "Hello." false
      = (stMuted, [], Option.none) :=
  ⟨by decide,
    mute_and_speak_disabled_noop hashZero cfgPlain stMuted "Hello." false (by decide)⟩

end Mycroft
